import Mathlib

/-!
Verification development for the stability-ai-mcp-server repository.

The Lean definitions below are a shallow embedding of the Python sources:

* `src/models.py` — the model registry and the parameter validator;
* `src/stability_client.py` — the generation client (payload building,
  HTTP-response interpretation, the typed error object);
* `src/utils.py` — the storage manager (storage-root resolution,
  persistence of image bytes with a JSON metadata sidecar, retention
  pruning).

Python strings become `String`, Python ints become `Int`/`Nat`, Python
floats become `ℚ` (only order comparisons against 0, 0.7 and 1 occur, on
which float and rational arithmetic agree), Python `Optional` values
become `Option`, raised exceptions become `Except`, and the filesystem
and the HTTP response are passed in explicitly as oracle values.
-/

/-- Python truthiness of an `Optional[str]` value: `None` and the empty
string are falsy, every other string is truthy. -/
def pyTruthy : Option String → Bool
  | none => false
  | some s => s ≠ ""

/-! ## models.py — the registry -/

/-- The `StabilityModel` enum of `src/models.py`, in declaration order. -/
inductive StabilityModel where
  | CORE
  | ULTRA
  | SD3_5_LARGE
  | SD3_5_LARGE_TURBO
  | SD3_5_MEDIUM
  | SD3_5_FLASH
deriving DecidableEq, Repr

/-- The string value of each enum member. -/
def StabilityModel.value : StabilityModel → String
  | .CORE => "stable-image-core"
  | .ULTRA => "stable-image-ultra"
  | .SD3_5_LARGE => "sd3.5-large"
  | .SD3_5_LARGE_TURBO => "sd3.5-large-turbo"
  | .SD3_5_MEDIUM => "sd3.5-medium"
  | .SD3_5_FLASH => "sd3.5-flash"

/-- Iteration order of the enum (`for model in StabilityModel`). -/
def StabilityModel.all : List StabilityModel :=
  [.CORE, .ULTRA, .SD3_5_LARGE, .SD3_5_LARGE_TURBO, .SD3_5_MEDIUM, .SD3_5_FLASH]

/-- The `ModelInfo` dataclass of `src/models.py`. -/
structure ModelInfo where
  name : String
  description : String
  endpoint : String
  supports_negative_prompt : Bool
  supports_image_to_image : Bool
  supports_strength : Bool
  max_seed : Nat := 4294967294
deriving DecidableEq, Repr

/-- The `MODEL_INFO` table of `src/models.py` (descriptions elided to
short markers; no claim depends on the description text). -/
def MODEL_INFO : StabilityModel → ModelInfo
  | .CORE =>
      { name := "Stable Image Core"
        description := "Fast, affordable, natural language optimized. Best for everyday use."
        endpoint := "/v2beta/stable-image/generate/core"
        supports_negative_prompt := true
        supports_image_to_image := true
        supports_strength := true }
  | .ULTRA =>
      { name := "Stable Image Ultra"
        description := "Highest quality results. State-of-the-art, SD3.5-based. Use for important or complex images."
        endpoint := "/v2beta/stable-image/generate/ultra"
        supports_negative_prompt := true
        supports_image_to_image := true
        supports_strength := true }
  | .SD3_5_LARGE =>
      { name := "SD3.5 Large"
        description := "8B parameter model. Maximum control and detail. Good for technical or artistic work."
        endpoint := "/v2beta/stable-image/generate/sd3"
        supports_negative_prompt := true
        supports_image_to_image := true
        supports_strength := true }
  | .SD3_5_LARGE_TURBO =>
      { name := "SD3.5 Large Turbo"
        description := "Distilled faster version of SD3.5 Large. Good balance of quality and speed."
        endpoint := "/v2beta/stable-image/generate/sd3"
        supports_negative_prompt := true
        supports_image_to_image := true
        supports_strength := true }
  | .SD3_5_MEDIUM =>
      { name := "SD3.5 Medium"
        description := "2B parameter model. Efficient and fast with good quality."
        endpoint := "/v2beta/stable-image/generate/sd3"
        supports_negative_prompt := true
        supports_image_to_image := true
        supports_strength := true }
  | .SD3_5_FLASH =>
      { name := "SD3.5 Flash"
        description := "Ultra-fast 4-step generation. Fastest generation, good for rapid iteration and previews."
        endpoint := "/v2beta/stable-image/generate/sd3"
        supports_negative_prompt := false
        supports_image_to_image := true
        supports_strength := true }

/-- `get_model_by_name`: linear scan over the enum in declaration order. -/
def get_model_by_name (model_name : String) : Option StabilityModel :=
  StabilityModel.all.find? (fun m => m.value == model_name)

/-! ## models.py — the validator -/

/-- The `AspectRatio` enum values, in declaration order. -/
def aspectRatioValues : List String :=
  ["1:1", "16:9", "9:16", "21:9", "9:21", "3:2", "2:3", "5:4", "4:5", "4:3", "3:4"]

/-- The `OutputFormat` enum values, in declaration order. -/
def outputFormatValues : List String := ["jpeg", "png"]

/-- `validate_aspect_ratio`. -/
def validate_aspect_ratio (aspect_ratio : String) : Bool :=
  aspectRatioValues.contains aspect_ratio

/-- `validate_output_format`. -/
def validate_output_format (output_format : String) : Bool :=
  outputFormatValues.contains output_format

/-- `validate_seed`: `0 <= seed <= 4294967294`. -/
def validate_seed (seed : Int) : Bool :=
  decide (0 ≤ seed) && decide (seed ≤ 4294967294)

/-- `validate_strength`: `0.0 <= strength <= 1.0`. -/
def validate_strength (strength : ℚ) : Bool :=
  decide (0 ≤ strength) && decide (strength ≤ 1)

/-- Python's `", ".join` on a list of strings. -/
def joinComma : List String → String
  | [] => ""
  | [s] => s
  | s :: rest => s ++ ", " ++ joinComma rest

/-- `get_model_validation_errors` of `src/models.py`: aggregate all
violations into one list; an unresolvable model key returns early with a
single error. -/
def get_model_validation_errors (model_name aspect_ratio output_format : String)
    (seed : Int) (strength : Option ℚ) (negative_prompt : Option String)
    (image_path : Option String) : List String :=
  match get_model_by_name model_name with
  | none =>
      ["Invalid model '" ++ (model_name ++ ("'. Available models: " ++
        joinComma (StabilityModel.all.map StabilityModel.value)))]
  | some model =>
      let model_info := MODEL_INFO model
      let e1 := if validate_aspect_ratio aspect_ratio then [] else
        ["Invalid aspect ratio '" ++ (aspect_ratio ++ ("'. Valid ratios: " ++
          joinComma aspectRatioValues))]
      let e2 := if validate_output_format output_format then [] else
        ["Invalid output format '" ++ (output_format ++ ("'. Valid formats: " ++
          joinComma outputFormatValues))]
      let e3 := if validate_seed seed then [] else
        ["Invalid seed '" ++ (toString seed ++ "'. Must be between 0 and 4294967294")]
      let e4 := match image_path, strength with
        | some ip, some st =>
            if ip = "" then [] else
            if ¬ model_info.supports_strength then
              ["Model '" ++ (model_name ++ "' does not support strength parameter")]
            else if ¬ validate_strength st then
              ["Invalid strength '" ++ (toString st ++ "'. Must be between 0.0 and 1.0")]
            else []
        | _, _ => []
      let e5 := if pyTruthy negative_prompt && ! model_info.supports_negative_prompt then
          ["Model '" ++ (model_name ++ "' does not support negative prompts")]
        else []
      let e6 := if pyTruthy image_path && ! model_info.supports_image_to_image then
          ["Model '" ++ (model_name ++ "' does not support image-to-image generation")]
        else []
      e1 ++ e2 ++ e3 ++ e4 ++ e5 ++ e6

/-- The same validator with the two capability error branches removed:
the strength-support test and the image-to-image-support test are elided,
everything else is untouched.  Used to express that those two branches
are unreachable. -/
def get_model_validation_errors_no_capability_branches
    (model_name aspect_ratio output_format : String)
    (seed : Int) (strength : Option ℚ) (negative_prompt : Option String)
    (image_path : Option String) : List String :=
  match get_model_by_name model_name with
  | none =>
      ["Invalid model '" ++ (model_name ++ ("'. Available models: " ++
        joinComma (StabilityModel.all.map StabilityModel.value)))]
  | some model =>
      let model_info := MODEL_INFO model
      let e1 := if validate_aspect_ratio aspect_ratio then [] else
        ["Invalid aspect ratio '" ++ (aspect_ratio ++ ("'. Valid ratios: " ++
          joinComma aspectRatioValues))]
      let e2 := if validate_output_format output_format then [] else
        ["Invalid output format '" ++ (output_format ++ ("'. Valid formats: " ++
          joinComma outputFormatValues))]
      let e3 := if validate_seed seed then [] else
        ["Invalid seed '" ++ (toString seed ++ "'. Must be between 0 and 4294967294")]
      let e4 := match image_path, strength with
        | some ip, some st =>
            if ip = "" then [] else
            if ¬ validate_strength st then
              ["Invalid strength '" ++ (toString st ++ "'. Must be between 0.0 and 1.0")]
            else []
        | _, _ => []
      let e5 := if pyTruthy negative_prompt && ! model_info.supports_negative_prompt then
          ["Model '" ++ (model_name ++ "' does not support negative prompts")]
        else []
      e1 ++ e2 ++ e3 ++ e4 ++ e5

/-! ## stability_client.py — the generation client

The HTTP response is passed in as an oracle value with its headers
already parsed (the remote API's `seed` header is numeric); transport
failures (`httpx.RequestError` → the `network_error` classification) are
outside the modeled oracle.  The local filesystem enters only through
the image-integrity check, abstracted to a status per path. -/

/-- The `StabilityAPIError` exception: message, optional HTTP status
code, and a classification tag that defaults to "api_error". -/
structure StabilityAPIError where
  message : String
  status_code : Option Nat := none
  error_type : String := "api_error"
deriving DecidableEq, Repr

/-- The `GenerationResult` dataclass (the `file_path`/`metadata_path`
fields, filled later by the façade, stay `None` in the client). -/
structure GenerationResult where
  image_data : List Nat
  seed : Nat
  finish_reason : String
  model : String
  file_path : Option String := none
  metadata_path : Option String := none
deriving DecidableEq, Repr

/-- An HTTP response as the client reads it: status, body (as text and
as bytes), and the two generation headers. -/
structure HttpResponse where
  status_code : Nat
  text : String
  content : List Nat
  finish_reason_header : Option String := none
  seed_header : Option Nat := none
deriving DecidableEq, Repr

/-- `httpx` counts a response as a success exactly when its status is 2xx. -/
def isSuccessStatus (status : Nat) : Bool :=
  decide (200 ≤ status) && decide (status < 300)

/-- What the image-integrity check can see at a path: no file, a file
PIL fails to verify as an image, or a decodable image. -/
inductive FileStatus where
  | absent
  | invalidImage
  | validImage
deriving DecidableEq, Repr

/-- The filesystem as the client's `_prepare_files_and_data` consults it. -/
def ImageFS : Type := String → FileStatus

/-- The multipart `files` mapping: either the opened input image, or the
placeholder field `files["none"] = ""` the remote API requires. -/
inductive FilesField where
  | imageFile (path : String)
  | placeholder
deriving DecidableEq, Repr

/-- The request payload dictionary built by the generate methods.
Absent keys are `none`; `data.pop("image_path")` is a no-op here because
the builders never put an `image_path` key into the payload. -/
structure Params where
  prompt : String
  aspect_ratio : Option String := none
  seed : Int
  output_format : String
  model : Option String := none
  mode : Option String := none
  negative_prompt : Option String := none
  strength : Option ℚ := none
deriving DecidableEq, Repr

/-- `StabilityClient._prepare_files_and_data`: with a truthy image path
the file must exist and verify as an image (the PIL exception text in
the invalid-image message is elided), else the placeholder field is
sent. -/
def prepare_files_and_data (fs : ImageFS) (params : Params)
    (image_path : Option String) : Except StabilityAPIError (FilesField × Params) :=
  match image_path with
  | some p =>
      if p = "" then .ok (.placeholder, params)
      else
        match fs p with
        | .absent =>
            .error { message := "Image file not found: " ++ p, error_type := "file_error" }
        | .invalidImage =>
            .error { message := "Invalid image file: " ++ p, error_type := "file_error" }
        | .validImage => .ok (.imageFile p, params)
  | none => .ok (.placeholder, params)

/-- The contextual error message `_make_request` builds for a non-success
status: specific text for 401, 402, 400 and 429, generic
"HTTP status: body" otherwise. -/
def http_error_message (resp : HttpResponse) : String :=
  if resp.status_code = 401 then
    "Invalid API key. Please check your STABILITY_API_KEY."
  else if resp.status_code = 402 then
    "Insufficient credits. Please check your Stability AI account balance."
  else if resp.status_code = 400 then
    "Bad request: " ++ (resp.text ++ ". Please check your parameters.")
  else if resp.status_code = 429 then
    "Rate limit exceeded. Please wait and try again."
  else
    "HTTP " ++ (toString resp.status_code ++ (": " ++ resp.text))

/-- `StabilityClient._make_request`: prepare files, then interpret the
response — non-success statuses raise a `StabilityAPIError` carrying the
status code (and the default "api_error" tag); a success status with
finish-reason `CONTENT_FILTERED` raises the content-filtered error; any
other success returns a `GenerationResult`. -/
def make_request (fs : ImageFS) (resp : HttpResponse) (params : Params)
    (image_path : Option String) : Except StabilityAPIError GenerationResult :=
  match prepare_files_and_data fs params image_path with
  | .error e => .error e
  | .ok (_files, data) =>
      if ! isSuccessStatus resp.status_code then
        .error { message := http_error_message resp, status_code := some resp.status_code }
      else
        let finish_reason := resp.finish_reason_header.getD "SUCCESS"
        let seed := resp.seed_header.getD 0
        if finish_reason = "CONTENT_FILTERED" then
          .error { message := "Generated content was filtered due to NSFW detection. Try a different prompt or add negative prompts to avoid restricted content.",
                   error_type := "content_filtered" }
        else
          .ok { image_data := resp.content, seed := seed, finish_reason := finish_reason,
                model := data.model.getD "unknown" }

/-- The payload built by `generate_text_to_image` (lines 245-260): base
fields, then model+mode for the shared sd3 route, then the negative
prompt only if truthy and supported. -/
def tti_params (model : String) (model_info : ModelInfo) (prompt aspect_ratio : String)
    (seed : Int) (output_format negative_prompt : String) : Params :=
  let base : Params :=
    { prompt := prompt, aspect_ratio := some aspect_ratio, seed := seed,
      output_format := output_format }
  let p1 := if model_info.endpoint = "/v2beta/stable-image/generate/sd3" then
      { base with model := some model, mode := some "text-to-image" }
    else base
  if negative_prompt ≠ "" ∧ model_info.supports_negative_prompt then
    { p1 with negative_prompt := some negative_prompt }
  else p1

/-- The payload built by `generate_image_to_image` (lines 299-317): base
fields, then strength if the model supports it (the caller always
supplies a strength — the Python parameter defaults to 0.7), then
model+mode for the sd3 route, then the negative prompt only if truthy
and supported. -/
def iti_params (model : String) (model_info : ModelInfo) (prompt : String) (strength : ℚ)
    (seed : Int) (output_format negative_prompt : String) : Params :=
  let base : Params := { prompt := prompt, seed := seed, output_format := output_format }
  let p1 := if model_info.supports_strength then { base with strength := some strength }
    else base
  let p2 := if model_info.endpoint = "/v2beta/stable-image/generate/sd3" then
      { p1 with model := some model, mode := some "image-to-image" }
    else p1
  if negative_prompt ≠ "" ∧ model_info.supports_negative_prompt then
    { p2 with negative_prompt := some negative_prompt }
  else p2

/-- `generate_text_to_image`: resolve the model, build the payload, make
the request (text-to-image passes no image path). -/
def generate_text_to_image (fs : ImageFS) (resp : HttpResponse)
    (prompt model aspect_ratio : String) (seed : Int)
    (output_format negative_prompt : String) : Except StabilityAPIError GenerationResult :=
  match get_model_by_name model with
  | none => .error { message := "Invalid model: " ++ model }
  | some model_enum =>
      let model_info := MODEL_INFO model_enum
      make_request fs resp
        (tti_params model model_info prompt aspect_ratio seed output_format negative_prompt)
        none

/-- `generate_image_to_image`: resolve the model, reject models without
image-to-image support, build the payload, make the request with the
image path. -/
def generate_image_to_image (fs : ImageFS) (resp : HttpResponse)
    (image_path prompt model : String) (strength : ℚ) (seed : Int)
    (output_format negative_prompt : String) : Except StabilityAPIError GenerationResult :=
  match get_model_by_name model with
  | none => .error { message := "Invalid model: " ++ model }
  | some model_enum =>
      let model_info := MODEL_INFO model_enum
      if ! model_info.supports_image_to_image then
        .error { message := "Model " ++ (model ++ " does not support image-to-image generation") }
      else
        make_request fs resp
          (iti_params model model_info prompt strength seed output_format negative_prompt)
          (some image_path)

/-! ## utils.py — pathlib stem and suffix

pathlib computes `suffix` as `name[i:]` for `i = name.rfind(".")` when
`0 < i < len(name) - 1`, else the empty string, and `stem` as the rest.
Counting `k = len(name) - i` characters from the right end up to and
including the last dot, the guard becomes `2 ≤ k ∧ k < len(name)`. -/

/-- Number of characters scanned up to and including the first dot of a
character list; `none` when there is no dot.  Applied to a reversed name
this counts from the last dot to the end of the name. -/
def revDotLen : List Char → Option Nat
  | [] => none
  | c :: rest => if c = '.' then some 1 else (revDotLen rest).map Nat.succ

/-- The length of pathlib's `suffix` of a file name. -/
def pySuffixLen (cs : List Char) : Nat :=
  match revDotLen cs.reverse with
  | none => 0
  | some k => if 2 ≤ k ∧ k < cs.length then k else 0

/-- Character list of pathlib's `stem`. -/
def pyStemChars (cs : List Char) : List Char := cs.take (cs.length - pySuffixLen cs)

/-- Character list of pathlib's `suffix`. -/
def pySuffixChars (cs : List Char) : List Char := cs.drop (cs.length - pySuffixLen cs)

/-- pathlib's `Path(name).stem` for a single-component name. -/
def pyStem (s : String) : String := ⟨pyStemChars s.data⟩

/-- pathlib's `Path(name).suffix` for a single-component name. -/
def pySuffix (s : String) : String := ⟨pySuffixChars s.data⟩

/-- Python's `str.lower` on ASCII letters, characterwise. -/
def pyLowerChar (c : Char) : Char :=
  if ('A' ≤ c ∧ c ≤ 'Z') then Char.ofNat (c.toNat + 32) else c

/-- Python's `str.lower`, on a character list. -/
def pyLower (cs : List Char) : List Char := cs.map pyLowerChar

theorem pyStemChars_append_pySuffixChars (cs : List Char) :
    pyStemChars cs ++ pySuffixChars cs = cs :=
  List.take_append_drop _ cs

theorem revDotLen_bounds {l : List Char} {k : Nat} (h : revDotLen l = some k) :
    1 ≤ k ∧ k ≤ l.length := by
  induction l generalizing k with
  | nil => simp [revDotLen] at h
  | cons c rest ih =>
      by_cases hc : c = '.'
      · simp [revDotLen, hc] at h
        simp only [List.length_cons]
        omega
      · simp [revDotLen, hc] at h
        obtain ⟨j, hj, hjk⟩ := h
        have := ih hj
        simp only [List.length_cons]
        omega

theorem revDotLen_dot {l : List Char} {k : Nat} (h : revDotLen l = some k) :
    l.get? (k - 1) = some '.' := by
  induction l generalizing k with
  | nil => simp [revDotLen] at h
  | cons c rest ih =>
      by_cases hc : c = '.'
      · simp [revDotLen, hc] at h
        subst h
        simp [hc]
      · simp [revDotLen, hc] at h
        obtain ⟨j, hj, hjk⟩ := h
        have h1 := (revDotLen_bounds hj).1
        have hrec := ih hj
        subst hjk
        simp only [Nat.succ_sub_one]
        have hj1 : j = (j - 1) + 1 := by omega
        rw [hj1]
        simpa using hrec

theorem pySuffixChars_empty_or_dot (cs : List Char) :
    pySuffixChars cs = [] ∨ (pySuffixChars cs).head? = some '.' := by
  unfold pySuffixChars pySuffixLen
  cases hr : revDotLen cs.reverse with
  | none =>
      left
      simp [List.drop_length]
  | some k =>
      by_cases hk : 2 ≤ k ∧ k < cs.length
      · right
        have hb := revDotLen_bounds hr
        rw [List.length_reverse] at hb
        have hget : cs.reverse.get? (k - 1) = some '.' := revDotLen_dot hr
        rw [List.get?_reverse (by omega)] at hget
        have hix : cs.length - 1 - (k - 1) = cs.length - k := by omega
        rw [hix] at hget
        rw [List.head?_drop]
        simp only [hk, if_true]
        rw [← List.get?_eq_getElem?]
        exact hget
      · left
        simp [hk, List.drop_length]

/-- The metadata sidecar's file name never collides with the image file
name it is derived from: `stem(f) + "_metadata.json" ≠ f` for every
name `f`. -/
theorem pyStem_metadata_ne (f : String) : pyStem f ++ "_metadata.json" ≠ f := by
  intro h
  have hd : (pyStem f ++ "_metadata.json").data = f.data := by rw [h]
  rw [String.data_append] at hd
  have hsplit := pyStemChars_append_pySuffixChars f.data
  conv at hd => rw [← hsplit]
  have hm : ("_metadata.json" : String).data = pySuffixChars f.data :=
    List.append_cancel_left hd
  rcases pySuffixChars_empty_or_dot f.data with he | hdot
  · rw [he] at hm
    exact absurd hm (by decide)
  · rw [← hm] at hdot
    exact absurd hdot (by decide)

theorem revDotLen_json_tail (t : List Char) :
    revDotLen ('n' :: 'o' :: 's' :: 'j' :: '.' :: t) = some 5 := by
  simp [revDotLen]

/-- The suffix of any name of the form `x + "_metadata.json"` is
".json". -/
theorem pySuffixChars_metadata (xs : List Char) :
    pySuffixChars (xs ++ ("_metadata.json" : String).data) = (".json" : String).data := by
  have hrev : (xs ++ ("_metadata.json" : String).data).reverse =
      'n' :: 'o' :: 's' :: 'j' :: '.' ::
        (['a', 't', 'a', 'd', 'a', 't', 'e', 'm', '_'] ++ xs.reverse) := by
    rw [List.reverse_append]
    rfl
  have hk : revDotLen (xs ++ ("_metadata.json" : String).data).reverse = some 5 := by
    rw [hrev]
    exact revDotLen_json_tail _
  have hlen : (xs ++ ("_metadata.json" : String).data).length = xs.length + 14 := by
    rw [List.length_append]
    rfl
  have hsl : pySuffixLen (xs ++ ("_metadata.json" : String).data) = 5 := by
    unfold pySuffixLen
    rw [hk, hlen]
    show (if 2 ≤ 5 ∧ 5 < xs.length + 14 then 5 else 0) = 5
    rw [if_pos ⟨by omega, by omega⟩]
  unfold pySuffixChars
  rw [hsl, hlen]
  have h9 : xs.length + 14 - 5 = xs.length + 9 := by omega
  rw [h9, List.drop_append]
  rfl

/-- The image-extension test of `cleanup_storage_directory` and
`get_storage_stats`: `suffix.lower() in [".png", ".jpg", ".jpeg"]`. -/
def isImageName (name : String) : Bool :=
  [".png", ".jpg", ".jpeg"].contains ⟨pyLower (pySuffixChars name.data)⟩

/-- A metadata sidecar name is never counted as an image file. -/
theorem isImageName_metadata (s : String) :
    isImageName (s ++ "_metadata.json") = false := by
  unfold isImageName
  rw [String.data_append, pySuffixChars_metadata]
  decide

/-! ## utils.py — the storage manager

The on-disk state is explicit: a partial map from absolute path strings
to file contents, a set of existing directories, and per-directory
write/creation permissions.  Path normalization (`expanduser`,
`resolve`) is modeled as the identity, and `json.dump` followed by a
parse of its output is modeled as the identity on the structured JSON
value it serializes. -/

/-- A JSON value as stored in a metadata sidecar (the flat records the
server writes only use strings, integers, booleans and null). -/
inductive JVal where
  | jstr (s : String)
  | jint (n : Int)
  | jbool (b : Bool)
  | jnull
deriving DecidableEq, Repr

/-- Python's `str()` of a metadata value, as used in f-strings. -/
def JVal.pyStr : JVal → String
  | .jstr s => s
  | .jint n => toString n
  | .jbool b => if b then "True" else "False"
  | .jnull => "None"

/-- What a stored file holds: raw bytes, or a serialized JSON object. -/
inductive FileData where
  | bytes (data : List Nat)
  | jsonObj (fields : List (String × JVal))
deriving DecidableEq, Repr

/-- The disk as the storage manager sees it. -/
structure DiskFS where
  files : String → Option FileData
  dirs : String → Bool
  writable : String → Bool
  mkdirOk : String → Bool

/-- The storage root `get_storage_path` resolves: the truthy
`IMAGE_STORAGE_PATH` override, else `cwd/images`. -/
def storageRoot (env : Option String) (cwd : String) : String :=
  match env with
  | some p => if p = "" then cwd ++ "/images" else p
  | none => cwd ++ "/images"

/-- `get_storage_path` of `src/utils.py`: resolve the root, create the
directory if absent (`mkdir(parents=True, exist_ok=True)`), then probe
write permission by touching and unlinking `.write_test`.  The
touch-then-unlink pair removes whatever file sits at the probe path. -/
def get_storage_path (env : Option String) (cwd : String) (fs : DiskFS) :
    Except String (String × DiskFS) :=
  let root := storageRoot env cwd
  if fs.dirs root || fs.mkdirOk root then
    let fs1 : DiskFS := { fs with dirs := fun d => if d = root then true else fs.dirs d }
    if fs1.writable root then
      .ok (root, { fs1 with
        files := fun q => if q = root ++ "/.write_test" then none else fs1.files q })
    else
      .error ("No write permission for storage directory: " ++ (root ++
        ". Please check directory permissions or choose a different path."))
  else
    .error ("Cannot create or access storage directory: " ++ (root ++
      ". Please check the IMAGE_STORAGE_PATH configuration."))

/-- `generate_filename`: `{prefix}_{timestamp}_{seed}.{format}` with the
second-resolution timestamp passed in as the time oracle. -/
def generate_filename (seed output_format : JVal) (prefixStr timestamp : String) : String :=
  prefixStr ++ ("_" ++ (timestamp ++ ("_" ++ (seed.pyStr ++ ("." ++ output_format.pyStr)))))

/-- `metadata.get(key, default)` on the metadata dictionary. -/
def lookupD (m : List (String × JVal)) (k : String) (d : JVal) : JVal :=
  match m.find? (fun kv => kv.1 == k) with
  | some kv => kv.2
  | none => d

/-- Python's `{**m, **inj}` dict merge on association lists with unique
keys: keys of `m` keep their position (values overridden by `inj` where
both have the key), new keys of `inj` are appended. -/
def pyDictMerge (m inj : List (String × JVal)) : List (String × JVal) :=
  (m.map (fun kv =>
    match inj.find? (fun kv2 => kv2.1 == kv.1) with
    | some kv2 => (kv.1, kv2.2)
    | none => kv)) ++
  inj.filter (fun kv2 => ! m.any (fun kv => kv.1 == kv2.1))

/-- `save_image_with_metadata` of `src/utils.py`: resolve the storage
root, pick the file name (generated from the metadata seed and output
format when the caller's name is falsy), write the image bytes, then
write the metadata JSON — the caller's fields plus the injected
`file_path`, `file_size`, `generated_at` and `storage_directory` — to
the sidecar named by the image stem. -/
def save_image_with_metadata (env : Option String) (cwd : String) (fs : DiskFS)
    (nowStamp nowIso : String) (image_data : List Nat)
    (metadata : List (String × JVal)) (filename : Option String) :
    Except String (DiskFS × String × String) :=
  match get_storage_path env cwd fs with
  | .error e => .error ("Failed to save image and metadata: " ++ e)
  | .ok (storage_path, fs1) =>
      let fname := match filename with
        | some f =>
            if f = "" then
              generate_filename (lookupD metadata "seed" (.jint 0))
                (lookupD metadata "output_format" (.jstr "png")) "stability" nowStamp
            else f
        | none =>
            generate_filename (lookupD metadata "seed" (.jint 0))
              (lookupD metadata "output_format" (.jstr "png")) "stability" nowStamp
      let image_path := storage_path ++ ("/" ++ fname)
      let fs2 : DiskFS := { fs1 with
        files := fun q => if q = image_path then some (.bytes image_data) else fs1.files q }
      let metadata_path := storage_path ++ ("/" ++ (pyStem fname ++ "_metadata.json"))
      let enhanced := pyDictMerge metadata
        [("file_path", .jstr image_path), ("file_size", .jint image_data.length),
         ("generated_at", .jstr nowIso), ("storage_directory", .jstr storage_path)]
      let fs3 : DiskFS := { fs2 with
        files := fun q => if q = metadata_path then some (.jsonObj enhanced) else fs2.files q }
      .ok (fs3, image_path, metadata_path)

/-! ## Theorems about the validator -/

/-- C5: for every input whose model key does not resolve, the validator
returns exactly the one error listing all valid model keys, regardless of
the other parameters — none of the other four checks contributes an
error. -/
theorem c5_unresolved_model_single_error
    (model_name aspect_ratio output_format : String) (seed : Int)
    (strength : Option ℚ) (negative_prompt : Option String) (image_path : Option String)
    (h : get_model_by_name model_name = none) :
    get_model_validation_errors model_name aspect_ratio output_format seed strength
        negative_prompt image_path =
      ["Invalid model '" ++ (model_name ++
        "'. Available models: stable-image-core, stable-image-ultra, sd3.5-large, sd3.5-large-turbo, sd3.5-medium, sd3.5-flash")] := by
  unfold get_model_validation_errors
  rw [h]
  rfl

/-- Witness for C5 at the unregistered key "sdxl" with every other
parameter invalid as well: still exactly one error. -/
theorem c5_unresolved_model_single_error_witness :
    get_model_by_name "sdxl" = none ∧
    get_model_validation_errors "sdxl" "7:5" "gif" (-3) (some 2) (some "blurry") (some "/tmp/x.png") =
      ["Invalid model 'sdxl'. Available models: stable-image-core, stable-image-ultra, sd3.5-large, sd3.5-large-turbo, sd3.5-medium, sd3.5-flash"] :=
  ⟨by decide, c5_unresolved_model_single_error "sdxl" "7:5" "gif" (-3) (some 2)
      (some "blurry") (some "/tmp/x.png") (by decide)⟩

/-- Resolving a registered model key by its own string value succeeds. -/
theorem get_model_by_name_value (m : StabilityModel) :
    get_model_by_name m.value = some m := by
  cases m <;> rfl

/-- C6: for every registered model lacking negative-prompt support
(`sd3.5-flash` is the one such model), validating a request that supplies
a non-empty negative prompt yields a validation error whose message
mentions that model key. -/
theorem c6_negative_prompt_unsupported_mentions_model
    (m : StabilityModel) (hm : (MODEL_INFO m).supports_negative_prompt = false)
    (aspect_ratio output_format : String) (seed : Int) (strength : Option ℚ)
    (image_path : Option String) (np : String) (hnp : np ≠ "") :
    ∃ e ∈ get_model_validation_errors m.value aspect_ratio output_format seed
        strength (some np) image_path,
      ∃ pre post, e = pre ++ (m.value ++ post) := by
  refine ⟨"Model '" ++ (m.value ++ "' does not support negative prompts"), ?_,
    "Model '", "' does not support negative prompts", rfl⟩
  unfold get_model_validation_errors
  rw [get_model_by_name_value m]
  simp [List.mem_append, pyTruthy, hnp, hm]

/-- Witness for C6 at the spec scenario: model `sd3.5-flash` with
negative prompt "blurry". -/
theorem c6_negative_prompt_unsupported_mentions_model_witness :
    (MODEL_INFO StabilityModel.SD3_5_FLASH).supports_negative_prompt = false ∧
    ("blurry" ≠ "") ∧
    ∃ e ∈ get_model_validation_errors StabilityModel.SD3_5_FLASH.value "1:1" "png" 0
        none (some "blurry") none,
      ∃ pre post, e = pre ++ (StabilityModel.SD3_5_FLASH.value ++ post) :=
  ⟨by decide, by decide,
    c6_negative_prompt_unsupported_mentions_model StabilityModel.SD3_5_FLASH (by decide)
      "1:1" "png" 0 none none "blurry" (by decide)⟩

/-- C10: every model in the fixed registry supports the strength
parameter and image-to-image generation, so the validator's two
capability error branches for them are unreachable: on every input the
validator returns exactly what the variant with those branches deleted
returns. -/
theorem c10_capability_branches_unreachable :
    (∀ m : StabilityModel, (MODEL_INFO m).supports_strength = true ∧
        (MODEL_INFO m).supports_image_to_image = true) ∧
    (∀ (model_name aspect_ratio output_format : String) (seed : Int)
        (strength : Option ℚ) (negative_prompt image_path : Option String),
      get_model_validation_errors model_name aspect_ratio output_format seed strength
          negative_prompt image_path =
        get_model_validation_errors_no_capability_branches model_name aspect_ratio
          output_format seed strength negative_prompt image_path) := by
  constructor
  · intro m
    cases m <;> exact ⟨rfl, rfl⟩
  · intro model_name aspect_ratio output_format seed strength negative_prompt image_path
    unfold get_model_validation_errors get_model_validation_errors_no_capability_branches
    cases hres : get_model_by_name model_name with
    | none => rfl
    | some m => cases m <;> simp [ MODEL_INFO]

/-! ## Theorems about the generation client -/

/-- C1 counterexample: an HTTP 401 response makes the client raise an
error whose classification tag is the default "api_error", not the
spec taxonomy's "authentication_error" — the status-specific treatment
is in the message text only. -/
theorem c1_counterexample_401_not_authentication_error :
    make_request (fun _ => FileStatus.absent)
        { status_code := 401, text := "unauthorized", content := [] }
        { prompt := "a cat", aspect_ratio := some "1:1", seed := 0, output_format := "png" }
        none =
      .error { message := "Invalid API key. Please check your STABILITY_API_KEY.",
               status_code := some 401, error_type := "api_error" } ∧
    ("api_error" ≠ "authentication_error") :=
  ⟨rfl, by decide⟩

/-- C1 (amended): every non-success response raises an error that
carries the status code and the default "api_error" classification tag,
with a status-specific message — 401 the invalid-API-key guidance, 402
the insufficient-credits account-balance guidance, 400 a bad-request
message containing the response body verbatim, 429 the rate-limit
message, and any other status the generic message with status code and
body. -/
theorem c1_http_error_status_messages (fs : ImageFS) (resp : HttpResponse) (params : Params)
    (h : isSuccessStatus resp.status_code = false) :
    (∃ e, make_request fs resp params none = .error e ∧
        e.status_code = some resp.status_code ∧ e.error_type = "api_error") ∧
    (resp.status_code = 401 → make_request fs resp params none =
      .error { message := "Invalid API key. Please check your STABILITY_API_KEY.",
               status_code := some 401 }) ∧
    (resp.status_code = 402 → make_request fs resp params none =
      .error { message := "Insufficient credits. Please check your Stability AI account balance.",
               status_code := some 402 }) ∧
    (resp.status_code = 400 → make_request fs resp params none =
      .error { message := "Bad request: " ++ (resp.text ++ ". Please check your parameters."),
               status_code := some 400 }) ∧
    (resp.status_code = 429 → make_request fs resp params none =
      .error { message := "Rate limit exceeded. Please wait and try again.",
               status_code := some 429 }) ∧
    (resp.status_code ≠ 401 → resp.status_code ≠ 402 → resp.status_code ≠ 400 →
      resp.status_code ≠ 429 → make_request fs resp params none =
      .error { message := "HTTP " ++ (toString resp.status_code ++ (": " ++ resp.text)),
               status_code := some resp.status_code }) := by
  refine ⟨⟨{ message := http_error_message resp, status_code := some resp.status_code },
      ?_, rfl, rfl⟩, ?_, ?_, ?_, ?_, ?_⟩
  · simp [make_request, prepare_files_and_data, h]
  · intro h401
    rw [h401] at h
    simp [make_request, prepare_files_and_data, h, http_error_message, h401]
  · intro h402
    rw [h402] at h
    simp [make_request, prepare_files_and_data, h, http_error_message, h402]
  · intro h400
    rw [h400] at h
    simp [make_request, prepare_files_and_data, h, http_error_message, h400]
  · intro h429
    rw [h429] at h
    simp [make_request, prepare_files_and_data, h, http_error_message, h429]
  · intro h401 h402 h400 h429
    simp [make_request, prepare_files_and_data, h, http_error_message, h401, h402, h400, h429]

/-- Witness for the amended C1 at a concrete 500 response. -/
theorem c1_http_error_status_messages_witness :
    isSuccessStatus 500 = false ∧
    make_request (fun _ => FileStatus.validImage)
        { status_code := 500, text := "boom", content := [] }
        { prompt := "p", seed := 0, output_format := "png" } none =
      .error { message := "HTTP " ++ (toString 500 ++ (": " ++ "boom")),
               status_code := some 500 } :=
  ⟨by decide,
    (c1_http_error_status_messages (fun _ => FileStatus.validImage)
        { status_code := 500, text := "boom", content := [] }
        { prompt := "p", seed := 0, output_format := "png" }
        (by decide)).2.2.2.2.2 (by decide) (by decide) (by decide) (by decide)⟩

/-- C2: on a success (2xx) status, a finish-reason header equal to
CONTENT_FILTERED makes the client raise an error classified
content_filtered, and every other finish-reason makes it return the
GenerationResult — content filtering is the only error outcome on a
success status. -/
theorem c2_content_filtered_is_only_success_error (fs : ImageFS) (resp : HttpResponse)
    (params : Params) (h : isSuccessStatus resp.status_code = true) :
    (resp.finish_reason_header = some "CONTENT_FILTERED" →
      ∃ e, make_request fs resp params none = .error e ∧ e.error_type = "content_filtered") ∧
    (resp.finish_reason_header ≠ some "CONTENT_FILTERED" →
      make_request fs resp params none =
        .ok { image_data := resp.content, seed := resp.seed_header.getD 0,
              finish_reason := resp.finish_reason_header.getD "SUCCESS",
              model := params.model.getD "unknown" }) := by
  constructor
  · intro hcf
    refine ⟨{ message := "Generated content was filtered due to NSFW detection. Try a different prompt or add negative prompts to avoid restricted content.",
              error_type := "content_filtered" }, ?_, rfl⟩
    simp [make_request, prepare_files_and_data, h, hcf]
  · intro hncf
    have hfr : resp.finish_reason_header.getD "SUCCESS" ≠ "CONTENT_FILTERED" := by
      cases hh : resp.finish_reason_header with
      | none => simp
      | some s =>
          simp only [Option.getD_some]
          intro hs
          exact hncf (by rw [hh, hs])
    simp [make_request, prepare_files_and_data, h, hfr]

/-- Witness for C2: a 200 response with `finish-reason: CONTENT_FILTERED`
errors as content_filtered; the same response with `finish-reason:
SUCCESS` returns the result. -/
theorem c2_content_filtered_is_only_success_error_witness :
    isSuccessStatus 200 = true ∧
    (∃ e, make_request (fun _ => FileStatus.validImage)
        { status_code := 200, text := "", content := [7, 7],
          finish_reason_header := some "CONTENT_FILTERED", seed_header := some 42 }
        { prompt := "p", seed := 0, output_format := "png" } none =
        .error e ∧ e.error_type = "content_filtered") ∧
    make_request (fun _ => FileStatus.validImage)
        { status_code := 200, text := "", content := [7, 7],
          finish_reason_header := some "SUCCESS", seed_header := some 42 }
        { prompt := "p", seed := 0, output_format := "png" } none =
      .ok { image_data := [7, 7], seed := 42, finish_reason := "SUCCESS",
            model := "unknown" } :=
  ⟨by decide,
    (c2_content_filtered_is_only_success_error (fun _ => FileStatus.validImage)
        { status_code := 200, text := "", content := [7, 7],
          finish_reason_header := some "CONTENT_FILTERED", seed_header := some 42 }
        { prompt := "p", seed := 0, output_format := "png" } (by decide)).1 rfl,
    (c2_content_filtered_is_only_success_error (fun _ => FileStatus.validImage)
        { status_code := 200, text := "", content := [7, 7],
          finish_reason_header := some "SUCCESS", seed_header := some 42 }
        { prompt := "p", seed := 0, output_format := "png" } (by decide)).2 (by decide)⟩

/-- C3: a truthy image path that does not resolve to a decodable image
(missing file or invalid image) makes the request fail with a file_error
classification, and the outcome does not depend on the HTTP response —
no request is dispatched. -/
theorem c3_bad_image_path_file_error_no_dispatch (fs : ImageFS) (p : String)
    (hp : p ≠ "") (hf : fs p ≠ FileStatus.validImage) (params : Params) :
    (∀ resp, ∃ e, make_request fs resp params (some p) = .error e ∧
        e.error_type = "file_error") ∧
    (∀ resp resp2, make_request fs resp params (some p) =
        make_request fs resp2 params (some p)) := by
  cases hfs : fs p with
  | absent =>
      refine ⟨fun resp => ⟨{ message := "Image file not found: " ++ p,
                             error_type := "file_error" }, ?_, rfl⟩,
        fun resp resp2 => ?_⟩ <;>
        simp [make_request, prepare_files_and_data, hp, hfs]
  | invalidImage =>
      refine ⟨fun resp => ⟨{ message := "Invalid image file: " ++ p,
                             error_type := "file_error" }, ?_, rfl⟩,
        fun resp resp2 => ?_⟩ <;>
        simp [make_request, prepare_files_and_data, hp, hfs]
  | validImage => exact absurd hfs hf

/-- Witness for C3 at a nonexistent path. -/
theorem c3_bad_image_path_file_error_no_dispatch_witness :
    ("/missing.png" ≠ "") ∧
    ((fun _ => FileStatus.absent : ImageFS) "/missing.png" ≠ FileStatus.validImage) ∧
    (∃ e, make_request (fun _ => FileStatus.absent)
        { status_code := 200, text := "", content := [1] }
        { prompt := "p", seed := 0, output_format := "png" } (some "/missing.png") =
        .error e ∧ e.error_type = "file_error") :=
  ⟨by decide, by decide,
    (c3_bad_image_path_file_error_no_dispatch (fun _ => FileStatus.absent) "/missing.png"
        (by decide) (by decide)
        { prompt := "p", seed := 0, output_format := "png" }).1
      { status_code := 200, text := "", content := [1] }⟩

/-- C4: in both payload builders the conditional fields appear only
under the claimed conditions — the negative prompt only when the
resolved model supports it and the caller passed a non-empty one, the
strength only when the model supports it (a strength value is always
supplied to the image-to-image builder, and text-to-image never carries
one). -/
theorem c4_conditional_payload_fields (m : StabilityModel)
    (prompt aspect_ratio : String) (seed : Int)
    (output_format negative_prompt : String) (strength : ℚ) :
    ((tti_params m.value (MODEL_INFO m) prompt aspect_ratio seed output_format
        negative_prompt).negative_prompt.isSome = true →
      (MODEL_INFO m).supports_negative_prompt = true ∧ negative_prompt ≠ "") ∧
    (tti_params m.value (MODEL_INFO m) prompt aspect_ratio seed output_format
        negative_prompt).strength = none ∧
    ((iti_params m.value (MODEL_INFO m) prompt strength seed output_format
        negative_prompt).negative_prompt.isSome = true →
      (MODEL_INFO m).supports_negative_prompt = true ∧ negative_prompt ≠ "") ∧
    ((iti_params m.value (MODEL_INFO m) prompt strength seed output_format
        negative_prompt).strength.isSome = true →
      (MODEL_INFO m).supports_strength = true) := by
  cases m <;>
    refine ⟨?_, ?_, ?_, ?_⟩ <;>
      simp only [tti_params, iti_params, StabilityModel.value, MODEL_INFO] <;>
      split_ifs <;> simp_all

/-- Witness for C4 at the Core model with negative prompt "blurry". -/
theorem c4_conditional_payload_fields_witness :
    ((MODEL_INFO StabilityModel.CORE).supports_negative_prompt = true ∧ ("blurry" ≠ "")) ∧
    (MODEL_INFO StabilityModel.CORE).supports_strength = true :=
  ⟨(c4_conditional_payload_fields StabilityModel.CORE "p" "1:1" 0 "png" "blurry"
      (7 / 10)).1 (by decide),
    (c4_conditional_payload_fields StabilityModel.CORE "p" "1:1" 0 "png" "blurry"
      (7 / 10)).2.2.2 (by decide)⟩

/-! ## Theorems about the storage manager -/

/-- String concatenation is left-cancellative. -/
theorem str_append_left_cancel {a b c : String} (h : a ++ b = a ++ c) : b = c := by
  have hd : (a ++ b).data = (a ++ c).data := by rw [h]
  rw [String.data_append, String.data_append] at hd
  have hbc := List.append_cancel_left hd
  cases b
  cases c
  cases hbc
  rfl

/-- On an existing writable storage root, `get_storage_path` succeeds
with the resolved root; its only filesystem effect is the creation and
removal of the `.write_test` probe (so any file previously sitting at
the probe path is gone afterwards). -/
theorem get_storage_path_valid (env : Option String) (cwd : String) (fs : DiskFS)
    (hd : fs.dirs (storageRoot env cwd) = true)
    (hw : fs.writable (storageRoot env cwd) = true) :
    get_storage_path env cwd fs =
      .ok (storageRoot env cwd,
        { fs with
          dirs := fun d => if d = storageRoot env cwd then true else fs.dirs d,
          files := fun q => if q = storageRoot env cwd ++ "/.write_test" then none
            else fs.files q }) := by
  unfold get_storage_path
  simp only [hd, Bool.true_or, if_true, hw]

/-- C9 counterexample: resolving the storage root over a directory that
already contains a user file named `.write_test` deletes that file —
the write probe touches and unlinks the path unconditionally, so the
call is not free of destructive actions on the directory's contents. -/
theorem c9_counterexample_probe_file_destroyed :
    (let fs : DiskFS :=
      { files := fun q => if q = "/w/images/.write_test" then some (.bytes [1]) else none,
        dirs := fun d => d == "/w/images",
        writable := fun _ => true,
        mkdirOk := fun _ => false }
     fs.files "/w/images/.write_test" = some (.bytes [1]) ∧
       ∃ fs1, get_storage_path none "/w" fs = .ok ("/w/images", fs1) ∧
         fs1.files "/w/images/.write_test" = none) := by
  exact ⟨rfl, _, rfl, rfl⟩

/-- C9 (amended): on an already-valid (existing, writable) storage root,
two successive calls return the same path, the second call leaves the
state exactly as the first left it, and the only change the first call
makes to the directory contents is removing whatever file sat at the
`.write_test` probe path — every other file, the directory set and the
permissions are untouched. -/
theorem c9_storage_root_idempotent_up_to_probe (env : Option String) (cwd : String)
    (fs : DiskFS) (hd : fs.dirs (storageRoot env cwd) = true)
    (hw : fs.writable (storageRoot env cwd) = true) :
    ∃ fs1, get_storage_path env cwd fs = .ok (storageRoot env cwd, fs1) ∧
      get_storage_path env cwd fs1 = .ok (storageRoot env cwd, fs1) ∧
      (∀ q, q ≠ storageRoot env cwd ++ "/.write_test" → fs1.files q = fs.files q) ∧
      (∀ d, fs1.dirs d = fs.dirs d) ∧
      fs1.writable = fs.writable ∧ fs1.mkdirOk = fs.mkdirOk := by
  set root := storageRoot env cwd with hroot
  set fs1 : DiskFS :=
    { fs with
      dirs := fun d => if d = root then true else fs.dirs d,
      files := fun q => if q = root ++ "/.write_test" then none else fs.files q } with hfs1
  have h1 : get_storage_path env cwd fs = .ok (root, fs1) :=
    get_storage_path_valid env cwd fs hd hw
  have hd1 : fs1.dirs root = true := by simp [hfs1]
  have hw1 : fs1.writable root = true := hw
  have h2 := get_storage_path_valid env cwd fs1 hd1 hw1
  have hfl : (fun q => if q = root ++ "/.write_test" then none else fs1.files q) =
      fs1.files := by
    funext q
    by_cases hq : q = root ++ "/.write_test"
    · simp [hq, hfs1]
    · simp [hq]
  have hdl : (fun d => if d = root then true else fs1.dirs d) = fs1.dirs := by
    funext d
    by_cases hdq : d = root
    · simp [hdq, hfs1]
    · simp [hdq]
  have hfix : ({ fs1 with
      dirs := fun d => if d = root then true else fs1.dirs d,
      files := fun q => if q = root ++ "/.write_test" then none
        else fs1.files q } : DiskFS) = fs1 := by
    rw [hfl, hdl]
  rw [hfix] at h2
  refine ⟨fs1, h1, h2, ?_, ?_, rfl, rfl⟩
  · intro q hq
    simp [hfs1, hq]
  · intro d
    by_cases hdq : d = root
    · subst hdq
      simp [hfs1, hd]
    · simp [hfs1, hdq]

/-- Witness for the amended C9 on a concrete valid directory. -/
theorem c9_storage_root_idempotent_up_to_probe_witness :
    (let fs : DiskFS :=
      { files := fun _ => none,
        dirs := fun d => d == "/data",
        writable := fun _ => true,
        mkdirOk := fun _ => false }
     fs.dirs (storageRoot (some "/data") "/w") = true ∧
       fs.writable (storageRoot (some "/data") "/w") = true ∧
       ∃ fs1, get_storage_path (some "/data") "/w" fs =
           .ok (storageRoot (some "/data") "/w", fs1) ∧
         get_storage_path (some "/data") "/w" fs1 =
           .ok (storageRoot (some "/data") "/w", fs1) ∧
         (∀ q, q ≠ storageRoot (some "/data") "/w" ++ "/.write_test" →
           fs1.files q = fs.files q) ∧
         (∀ d, fs1.dirs d = fs.dirs d) ∧
         fs1.writable = fs.writable ∧ fs1.mkdirOk = fs.mkdirOk) :=
  ⟨rfl, rfl,
    c9_storage_root_idempotent_up_to_probe (some "/data") "/w"
      { files := fun _ => none,
        dirs := fun d => d == "/data",
        writable := fun _ => true,
        mkdirOk := fun _ => false } rfl rfl⟩

/-- Every key of the caller's metadata survives the Python dict merge. -/
theorem pyDictMerge_mem_left {m inj : List (String × JVal)} {k : String} {v : JVal}
    (h : (k, v) ∈ m) : ∃ w, (k, w) ∈ pyDictMerge m inj := by
  unfold pyDictMerge
  cases hf : inj.find? (fun kv2 => kv2.1 == k) with
  | none =>
      refine ⟨v, List.mem_append_left _ ?_⟩
      have := List.mem_map_of_mem
        (fun kv : String × JVal =>
          match inj.find? (fun kv2 => kv2.1 == kv.1) with
          | some kv2 => (kv.1, kv2.2)
          | none => kv) h
      simpa [hf] using this
  | some kv2 =>
      refine ⟨kv2.2, List.mem_append_left _ ?_⟩
      have := List.mem_map_of_mem
        (fun kv : String × JVal =>
          match inj.find? (fun kv2 => kv2.1 == kv.1) with
          | some kv2 => (kv.1, kv2.2)
          | none => kv) h
      simpa [hf] using this

/-- Every key of the injected fields is present after the merge. -/
theorem pyDictMerge_mem_inj {m inj : List (String × JVal)} {k : String} {v : JVal}
    (h : (k, v) ∈ inj) : ∃ w, (k, w) ∈ pyDictMerge m inj := by
  by_cases hm : m.any (fun kv => kv.1 == k) = true
  · rw [List.any_eq_true] at hm
    obtain ⟨⟨k1, v1⟩, hmem, hk⟩ := hm
    have hk1 : k1 = k := by simpa using hk
    subst hk1
    exact pyDictMerge_mem_left hmem
  · refine ⟨v, List.mem_append_right _ ?_⟩
    rw [List.mem_filter]
    refine ⟨h, ?_⟩
    have hfalse : m.any (fun kv => kv.1 == k) = false := Bool.eq_false_iff.mpr hm
    show (! m.any (fun kv => kv.1 == k)) = true
    rw [hfalse]
    rfl

/-- C7: persisting image bytes and a metadata mapping into a valid
storage root succeeds, reading the returned image path back gives
byte-identical content, and the file at the returned metadata path is a
JSON object containing every key the caller supplied plus the four
injected keys (file path, byte size, generation timestamp, storage
directory). -/
theorem c7_persist_round_trip (env : Option String) (cwd : String) (fs : DiskFS)
    (nowStamp nowIso : String) (image_data : List Nat)
    (metadata : List (String × JVal)) (filename : Option String)
    (hd : fs.dirs (storageRoot env cwd) = true)
    (hw : fs.writable (storageRoot env cwd) = true) :
    ∃ fs3 image_path metadata_path,
      save_image_with_metadata env cwd fs nowStamp nowIso image_data metadata filename =
        .ok (fs3, image_path, metadata_path) ∧
      fs3.files image_path = some (.bytes image_data) ∧
      ∃ obj, fs3.files metadata_path = some (.jsonObj obj) ∧
        (∀ k v, (k, v) ∈ metadata → ∃ w, (k, w) ∈ obj) ∧
        (∃ w, ("file_path", w) ∈ obj) ∧ (∃ w, ("file_size", w) ∈ obj) ∧
        (∃ w, ("generated_at", w) ∈ obj) ∧ (∃ w, ("storage_directory", w) ∈ obj) := by
  have hgs := get_storage_path_valid env cwd fs hd hw
  set root := storageRoot env cwd with hroot
  set fname : String := (match filename with
    | some f =>
        if f = "" then
          generate_filename (lookupD metadata "seed" (.jint 0))
            (lookupD metadata "output_format" (.jstr "png")) "stability" nowStamp
        else f
    | none =>
        generate_filename (lookupD metadata "seed" (.jint 0))
          (lookupD metadata "output_format" (.jstr "png")) "stability" nowStamp) with hfname
  set ip : String := root ++ ("/" ++ fname) with hip
  set mp : String := root ++ ("/" ++ (pyStem fname ++ "_metadata.json")) with hmp
  set enh : List (String × JVal) := pyDictMerge metadata
    [("file_path", .jstr ip), ("file_size", .jint image_data.length),
     ("generated_at", .jstr nowIso), ("storage_directory", .jstr root)] with henh
  have hne : ip ≠ mp := by
    rw [hip, hmp]
    intro hcontra
    have h1 := str_append_left_cancel hcontra
    have h2 := str_append_left_cancel h1
    exact pyStem_metadata_ne fname h2.symm
  have hsave : save_image_with_metadata env cwd fs nowStamp nowIso image_data metadata
      filename =
      .ok ({ files := fun q => if q = mp then some (.jsonObj enh)
               else if q = ip then some (.bytes image_data)
               else if q = root ++ "/.write_test" then none else fs.files q,
             dirs := fun d => if d = root then true else fs.dirs d,
             writable := fs.writable, mkdirOk := fs.mkdirOk }, ip, mp) := by
    unfold save_image_with_metadata
    rw [hgs]
  have hm1 : (("file_path", JVal.jstr ip) : String × JVal) ∈
      [("file_path", JVal.jstr ip), ("file_size", JVal.jint (image_data.length : Int)),
       ("generated_at", JVal.jstr nowIso), ("storage_directory", JVal.jstr root)] := by simp
  have hm2 : (("file_size", JVal.jint (image_data.length : Int)) : String × JVal) ∈
      [("file_path", JVal.jstr ip), ("file_size", JVal.jint (image_data.length : Int)),
       ("generated_at", JVal.jstr nowIso), ("storage_directory", JVal.jstr root)] := by simp
  have hm3 : (("generated_at", JVal.jstr nowIso) : String × JVal) ∈
      [("file_path", JVal.jstr ip), ("file_size", JVal.jint (image_data.length : Int)),
       ("generated_at", JVal.jstr nowIso), ("storage_directory", JVal.jstr root)] := by simp
  have hm4 : (("storage_directory", JVal.jstr root) : String × JVal) ∈
      [("file_path", JVal.jstr ip), ("file_size", JVal.jint (image_data.length : Int)),
       ("generated_at", JVal.jstr nowIso), ("storage_directory", JVal.jstr root)] := by simp
  refine ⟨_, ip, mp, hsave, ?_,
    ⟨enh, ?_, fun k v hkv => pyDictMerge_mem_left hkv,
      pyDictMerge_mem_inj hm1, pyDictMerge_mem_inj hm2,
      pyDictMerge_mem_inj hm3, pyDictMerge_mem_inj hm4⟩⟩
  · show (if ip = mp then some (FileData.jsonObj enh)
        else if ip = ip then some (FileData.bytes image_data)
        else if ip = root ++ "/.write_test" then none else fs.files ip) =
      some (FileData.bytes image_data)
    rw [if_neg hne, if_pos rfl]
  · show (if mp = mp then some (FileData.jsonObj enh)
        else if mp = ip then some (FileData.bytes image_data)
        else if mp = root ++ "/.write_test" then none else fs.files mp) =
      some (FileData.jsonObj enh)
    rw [if_pos rfl]

/-- Witness for C7 persisting three bytes and a three-key metadata
record into a concrete valid storage root. -/
theorem c7_persist_round_trip_witness :
    (let fs : DiskFS :=
      { files := fun _ => none,
        dirs := fun d => d == "/data",
        writable := fun _ => true,
        mkdirOk := fun _ => false }
     fs.dirs (storageRoot (some "/data") "/w") = true ∧
       fs.writable (storageRoot (some "/data") "/w") = true ∧
       ∃ fs3 image_path metadata_path,
         save_image_with_metadata (some "/data") "/w" fs "20250101_120000"
             "2025-01-01T12:00:00" [1, 2, 3]
             [("prompt", .jstr "a cat"), ("seed", .jint 42), ("output_format", .jstr "png")]
             none =
           .ok (fs3, image_path, metadata_path) ∧
         fs3.files image_path = some (.bytes [1, 2, 3]) ∧
         ∃ obj, fs3.files metadata_path = some (.jsonObj obj) ∧
           (∀ k v, (k, v) ∈
             ([("prompt", JVal.jstr "a cat"), ("seed", JVal.jint 42),
               ("output_format", JVal.jstr "png")] : List (String × JVal)) →
             ∃ w, (k, w) ∈ obj) ∧
           (∃ w, ("file_path", w) ∈ obj) ∧ (∃ w, ("file_size", w) ∈ obj) ∧
           (∃ w, ("generated_at", w) ∈ obj) ∧ (∃ w, ("storage_directory", w) ∈ obj)) :=
  ⟨rfl, rfl,
    c7_persist_round_trip (some "/data") "/w"
      { files := fun _ => none,
        dirs := fun d => d == "/data",
        writable := fun _ => true,
        mkdirOk := fun _ => false }
      "20250101_120000" "2025-01-01T12:00:00" [1, 2, 3]
      [("prompt", .jstr "a cat"), ("seed", .jint 42), ("output_format", .jstr "png")]
      none rfl rfl⟩

/-! ## utils.py — retention pruning

`cleanup_storage_directory` works on a directory listing; an entry
carries the name, the `is_file` flag and the modification time.
Deletion is by name (names in one directory are unique).  In the model
every unlink succeeds, so the returned count equals the number of image
files selected for removal. -/

/-- A directory entry as `Path.iterdir` yields it. -/
structure DirEntry where
  name : String
  is_file : Bool
  mtime : Nat
deriving DecidableEq, Repr

/-- The image files of a listing: regular files whose lowercased
pathlib suffix is .png, .jpg or .jpeg. -/
def imageEntries (dir : List DirEntry) : List DirEntry :=
  dir.filter (fun e => e.is_file && isImageName e.name)

/-- Ordering by modification time. -/
def mtimeLe : DirEntry → DirEntry → Prop := fun a b => a.mtime ≤ b.mtime

instance : DecidableRel mtimeLe := fun a b => Nat.decLe a.mtime b.mtime

instance : IsTotal DirEntry mtimeLe := ⟨fun a b => Nat.le_total a.mtime b.mtime⟩

instance : IsTrans DirEntry mtimeLe := ⟨fun _ _ _ h1 h2 => Nat.le_trans h1 h2⟩

/-- Python's stable ascending `image_files.sort(key=lambda f: mtime)`,
modeled by insertion sort (also stable). -/
def sortByMtime (l : List DirEntry) : List DirEntry := List.insertionSort mtimeLe l

/-- `cleanup_storage_directory` of `src/utils.py`: collect the image
files, sort by modification time ascending, and if the count exceeds
`max_files` remove the surplus oldest first, each together with its
`{stem}_metadata.json` sidecar; return the new listing and the count
removed. -/
def cleanup_storage_directory (dir : List DirEntry) (max_files : Nat) :
    List DirEntry × Nat :=
  let image_files := imageEntries dir
  let sorted := sortByMtime image_files
  let files_to_remove := image_files.length - max_files
  if 0 < files_to_remove then
    let toRemove := sorted.take files_to_remove
    let names := toRemove.map (fun e => e.name) ++
      toRemove.map (fun e => pyStem e.name ++ "_metadata.json")
    (dir.filter (fun e => ! names.contains e.name), toRemove.length)
  else (dir, 0)

/-- A string not in a list passes the negated-contains filter. -/
theorem not_contains_of_not_mem {L : List String} {s : String} (hs : s ∉ L) :
    (! L.contains s) = true := by
  rw [Bool.not_eq_true']
  exact Bool.eq_false_iff.mpr (fun hc => hs (List.elem_iff.mp hc))

/-- A string in a list fails the negated-contains filter. -/
theorem not_contains_of_mem {L : List String} {s : String} (hs : s ∈ L) :
    (! L.contains s) = false := by
  have hc : L.contains s = true := List.elem_iff.mpr hs
  rw [hc]
  rfl

/-- C8: with `imageEntries dir` holding N+k image files (k > 0) and all
names in the listing distinct, pruning with `max_files = N` reports k
removals, the surviving image files are exactly the k-th tail of the
mtime-ascending sort (so exactly k image files are removed, each with
modification time no larger than that of any survivor), and neither a
removed image file's name nor its metadata sidecar's name remains
anywhere in the listing. -/
theorem c8_prune_oldest_removes_k_smallest (dir : List DirEntry) (N k : Nat) (hk : 0 < k)
    (hnodup : (dir.map DirEntry.name).Nodup)
    (hlen : (imageEntries dir).length = N + k) :
    (cleanup_storage_directory dir N).2 = k ∧
    (imageEntries (cleanup_storage_directory dir N).1).Perm
      ((sortByMtime (imageEntries dir)).drop k) ∧
    (imageEntries (cleanup_storage_directory dir N).1).length = N ∧
    (∀ x ∈ (sortByMtime (imageEntries dir)).take k,
      ∀ y ∈ imageEntries (cleanup_storage_directory dir N).1, x.mtime ≤ y.mtime) ∧
    (∀ x ∈ (sortByMtime (imageEntries dir)).take k,
      ∀ e ∈ (cleanup_storage_directory dir N).1,
        e.name ≠ x.name ∧ e.name ≠ pyStem x.name ++ "_metadata.json") := by
  have hperm : (sortByMtime (imageEntries dir)).Perm (imageEntries dir) :=
    List.perm_insertionSort _ _
  have hslen : (sortByMtime (imageEntries dir)).length = N + k := by
    rw [hperm.length_eq, hlen]
  have hred : cleanup_storage_directory dir N =
      (dir.filter (fun e =>
        ! (((sortByMtime (imageEntries dir)).take k).map (fun e => e.name) ++
           ((sortByMtime (imageEntries dir)).take k).map
             (fun e => pyStem e.name ++ "_metadata.json")).contains e.name),
       ((sortByMtime (imageEntries dir)).take k).length) := by
    unfold cleanup_storage_directory
    simp only [hlen, Nat.add_sub_cancel_left]
    rw [if_pos hk]
  have htlen : ((sortByMtime (imageEntries dir)).take k).length = k := by
    rw [List.length_take, hslen]
    exact Nat.min_eq_left (by omega)
  have himgnodup : ((imageEntries dir).map DirEntry.name).Nodup :=
    List.Nodup.sublist (List.Sublist.map DirEntry.name (List.filter_sublist dir)) hnodup
  have hsortnodup : ((sortByMtime (imageEntries dir)).map DirEntry.name).Nodup :=
    ((hperm.map DirEntry.name).nodup_iff).mpr himgnodup
  have hsplit : sortByMtime (imageEntries dir) =
      (sortByMtime (imageEntries dir)).take k ++ (sortByMtime (imageEntries dir)).drop k :=
    (List.take_append_drop k _).symm
  have hdisj : (((sortByMtime (imageEntries dir)).take k).map DirEntry.name).Disjoint
      (((sortByMtime (imageEntries dir)).drop k).map DirEntry.name) := by
    rw [hsplit, List.map_append] at hsortnodup
    exact (List.nodup_append.mp hsortnodup).2.2
  -- survivors of the drop part pass the filter
  have hkeepD : ∀ y ∈ (sortByMtime (imageEntries dir)).drop k,
      (! (((sortByMtime (imageEntries dir)).take k).map (fun e => e.name) ++
          ((sortByMtime (imageEntries dir)).take k).map
            (fun e => pyStem e.name ++ "_metadata.json")).contains y.name) = true := by
    intro y hy
    apply not_contains_of_not_mem
    intro hmem
    rcases List.mem_append.mp hmem with hmem1 | hmem2
    · obtain ⟨x, hxT, hxn⟩ := List.mem_map.mp hmem1
      exact hdisj (hxn ▸ List.mem_map_of_mem (fun e => e.name) hxT)
        (List.mem_map_of_mem (fun e => e.name) hy)
    · obtain ⟨x, hxT, hxn⟩ := List.mem_map.mp hmem2
      have hyimg : y ∈ imageEntries dir := hperm.mem_iff.mp (List.mem_of_mem_drop hy)
      have himg : (y.is_file && isImageName y.name) = true :=
        List.of_mem_filter (p := fun e : DirEntry => e.is_file && isImageName e.name) hyimg
      have hiy : isImageName y.name = true := by
        simp only [Bool.and_eq_true] at himg
        exact himg.2
      rw [← hxn, isImageName_metadata] at hiy
      exact Bool.false_ne_true hiy
  -- the removed part fails the filter
  have hdropT : ∀ x ∈ (sortByMtime (imageEntries dir)).take k,
      (! (((sortByMtime (imageEntries dir)).take k).map (fun e => e.name) ++
          ((sortByMtime (imageEntries dir)).take k).map
            (fun e => pyStem e.name ++ "_metadata.json")).contains x.name) = false := by
    intro x hxT
    exact not_contains_of_mem
      (List.mem_append_left _ (List.mem_map_of_mem (fun e => e.name) hxT))
  -- the surviving image files are exactly the sorted tail
  have hB : (imageEntries (cleanup_storage_directory dir N).1).Perm
      ((sortByMtime (imageEntries dir)).drop k) := by
    rw [hred]
    set prd : DirEntry → Bool := (fun e =>
        ! (((sortByMtime (imageEntries dir)).take k).map (fun e => e.name) ++
           ((sortByMtime (imageEntries dir)).take k).map
             (fun e => pyStem e.name ++ "_metadata.json")).contains e.name) with hprd
    have hcomm : imageEntries (List.filter prd dir) =
        List.filter prd (imageEntries dir) :=
      List.filter_comm _ _ dir
    show (imageEntries (List.filter prd dir)).Perm _
    rw [hcomm]
    have h1 := (hperm.symm).filter prd
    have h2 : List.filter prd
        ((sortByMtime (imageEntries dir)).take k ++
          (sortByMtime (imageEntries dir)).drop k) =
        (sortByMtime (imageEntries dir)).drop k := by
      rw [List.filter_append,
        List.filter_eq_nil.mpr (fun x hx => by
          show ¬ ((! (((sortByMtime (imageEntries dir)).take k).map (fun e => e.name) ++
              ((sortByMtime (imageEntries dir)).take k).map
                (fun e => pyStem e.name ++ "_metadata.json")).contains x.name) = true)
          rw [hdropT x hx]
          decide),
        List.filter_eq_self.mpr (fun y hy => hkeepD y hy), List.nil_append]
    have h3 : List.filter prd (sortByMtime (imageEntries dir)) =
        (sortByMtime (imageEntries dir)).drop k :=
      (congrArg (List.filter prd) hsplit).trans h2
    rw [h3] at h1
    exact h1
  refine ⟨?_, hB, ?_, ?_, ?_⟩
  · rw [hred]
    exact htlen
  · rw [hB.length_eq, List.length_drop, hslen, Nat.add_sub_cancel]
  · intro x hxT y hy
    have hsorted : List.Sorted mtimeLe (sortByMtime (imageEntries dir)) :=
      List.sorted_insertionSort mtimeLe (imageEntries dir)
    rw [hsplit] at hsorted
    have hpw := (List.pairwise_append.mp hsorted).2.2
    exact hpw x hxT y (hB.mem_iff.mp hy)
  · intro x hxT e he
    rw [hred] at he
    have hkeep := List.of_mem_filter he
    rw [Bool.not_eq_true'] at hkeep
    have hnotmem : e.name ∉
        (((sortByMtime (imageEntries dir)).take k).map (fun e => e.name) ++
         ((sortByMtime (imageEntries dir)).take k).map
           (fun e => pyStem e.name ++ "_metadata.json")) := by
      intro hmem
      have hc2 : (((sortByMtime (imageEntries dir)).take k).map (fun e => e.name) ++
          ((sortByMtime (imageEntries dir)).take k).map
            (fun e => pyStem e.name ++ "_metadata.json")).contains e.name = true :=
        List.elem_iff.mpr hmem
      rw [hc2] at hkeep
      exact absurd hkeep (by decide)
    constructor
    · intro heq
      exact hnotmem (List.mem_append_left _
        (heq ▸ List.mem_map_of_mem (fun e => e.name) hxT))
    · intro heq
      exact hnotmem (List.mem_append_right _
        (heq ▸ List.mem_map_of_mem (fun e => pyStem e.name ++ "_metadata.json") hxT))

/-- Witness for C8: a listing with three image files and one metadata
sidecar, pruned to one image file — two removals reported, one image
file surviving. -/
theorem c8_prune_oldest_removes_k_smallest_witness :
    ((0 : Nat) < 2) ∧
    (([⟨"a.png", true, 10⟩, ⟨"b.png", true, 5⟩, ⟨"c.jpg", true, 7⟩,
       ⟨"b_metadata.json", true, 6⟩] : List DirEntry).map DirEntry.name).Nodup ∧
    (imageEntries [⟨"a.png", true, 10⟩, ⟨"b.png", true, 5⟩, ⟨"c.jpg", true, 7⟩,
       ⟨"b_metadata.json", true, 6⟩]).length = 1 + 2 ∧
    (cleanup_storage_directory [⟨"a.png", true, 10⟩, ⟨"b.png", true, 5⟩,
       ⟨"c.jpg", true, 7⟩, ⟨"b_metadata.json", true, 6⟩] 1).2 = 2 ∧
    (imageEntries (cleanup_storage_directory [⟨"a.png", true, 10⟩, ⟨"b.png", true, 5⟩,
       ⟨"c.jpg", true, 7⟩, ⟨"b_metadata.json", true, 6⟩] 1).1).length = 1 :=
  ⟨by decide, by decide, by decide,
    (c8_prune_oldest_removes_k_smallest
      [⟨"a.png", true, 10⟩, ⟨"b.png", true, 5⟩, ⟨"c.jpg", true, 7⟩,
       ⟨"b_metadata.json", true, 6⟩] 1 2 (by decide) (by decide) (by decide)).1,
    (c8_prune_oldest_removes_k_smallest
      [⟨"a.png", true, 10⟩, ⟨"b.png", true, 5⟩, ⟨"c.jpg", true, 7⟩,
       ⟨"b_metadata.json", true, 6⟩] 1 2 (by decide) (by decide) (by decide)).2.2.1⟩
